import Mathlib

/-!
Verification of the particle engine in
`src/components/demos/smash-particles.tsx`.

The component keeps a fixed pool of `PARTICLE_CAPACITY` particle slots in
parallel flat arrays (`positions`, `velocities`, `ages`, `lifetimes`,
`sizes`, `alphas`), spawns bursts of up to `BURST_PARTICLE_COUNT` particles
per key stroke by reusing dead slots (`spawnBurst`), advances all alive
particles once per rendered frame (the `useFrame` callback), and decays a
camera-shake magnitude.

Embedding conventions:
* numeric state is modelled over `ℚ` (exact arithmetic standing in for the
  source's floating point);
* the pool is modelled as a function `ℕ → Slot`, one `Slot` per index of
  the parallel arrays;
* calls into the host math library are modelled as explicit inputs:
  `Math.random()` draws and the trigonometric direction sampling become a
  per-slot `Sample` oracle, and `Math.sqrt` becomes a function argument
  `sqrtQ : ℚ → ℚ` (theorems that depend on it carry hypotheses saying it
  behaves as a square root at the point where it is applied).
-/

namespace SmashParticles

/-- Source constant `PARTICLE_CAPACITY`: maximum number of particle slots. -/
def PARTICLE_CAPACITY : ℕ := 5000

/-- Source constant `BURST_PARTICLE_COUNT`: particles created per key stroke. -/
def BURST_PARTICLE_COUNT : ℕ := 500

/-- Source constant `SPEED_MIN`. -/
def SPEED_MIN : ℚ := 22/10

/-- Source constant `SPEED_MAX`. -/
def SPEED_MAX : ℚ := 7

/-- Source constant `LIFETIME_MIN`. -/
def LIFETIME_MIN : ℚ := 8/10

/-- Source constant `LIFETIME_MAX`. -/
def LIFETIME_MAX : ℚ := 16/10

/-- Source constant `VELOCITY_DAMPING`. -/
def VELOCITY_DAMPING : ℚ := 98/100

/-- Source constant `GRAVITY` (applied to the y velocity). -/
def GRAVITY : ℚ := -8

/-- Source constant `IMPULSE_RADIUS`. -/
def IMPULSE_RADIUS : ℚ := 2/10

/-- Source constant `IMPULSE_STRENGTH`. -/
def IMPULSE_STRENGTH : ℚ := 5

/-- Source constant `SHAKE_DECAY_PER_SEC`. -/
def SHAKE_DECAY_PER_SEC : ℚ := 1

/-- One particle slot: the entries at index `i` of the parallel arrays
`positions` (3 entries), `velocities` (3 entries), `ages`, `lifetimes`,
`sizes` and `alphas`. -/
structure Slot where
  posX : ℚ
  posY : ℚ
  posZ : ℚ
  velX : ℚ
  velY : ℚ
  velZ : ℚ
  age : ℚ
  lifetime : ℚ
  size : ℚ
  alpha : ℚ
  deriving DecidableEq

/-- A slot is dead when `ages[i] >= lifetimes[i]`. -/
def Slot.dead (s : Slot) : Prop := s.lifetime ≤ s.age

/-- A slot is alive when `ages[i] < lifetimes[i]`. -/
def Slot.alive (s : Slot) : Prop := s.age < s.lifetime

instance (s : Slot) : Decidable s.dead :=
  inferInstanceAs (Decidable (s.lifetime ≤ s.age))

instance (s : Slot) : Decidable s.alive :=
  inferInstanceAs (Decidable (s.age < s.lifetime))

/-- The initial pool: `positions` filled with `1e6`, `velocities` with `0`,
`ages[i] = i`, `lifetimes`, `sizes` and `alphas` filled with `0`. -/
def initPool : ℕ → Slot := fun i =>
  { posX := 1000000, posY := 1000000, posZ := 1000000,
    velX := 0, velY := 0, velZ := 0,
    age := (i : ℚ), lifetime := 0, size := 0, alpha := 0 }

/-- The `Math.random()` draws (and the trig-derived direction, which the
source computes from two further draws via `sin`, `cos`, `acos`) consumed
when `spawnBurst` reinitializes one slot. `dirX/dirY/dirZ` stand for the
transcendental expressions `sin(phi)*cos(theta)`, `sin(phi)*sin(theta)`,
`cos(phi)`. -/
structure Sample where
  rx : ℚ
  ry : ℚ
  dirX : ℚ
  dirY : ℚ
  dirZ : ℚ
  rSpeed : ℚ
  rLife : ℚ
  rSize : ℚ
  deriving DecidableEq

/-- The raw draws of a `Sample` lie in `[0, 1)`, as `Math.random()`
guarantees. -/
structure ValidSample (s : Sample) : Prop where
  rx0 : 0 ≤ s.rx
  rx1 : s.rx < 1
  ry0 : 0 ≤ s.ry
  ry1 : s.ry < 1
  rSpeed0 : 0 ≤ s.rSpeed
  rSpeed1 : s.rSpeed < 1
  rLife0 : 0 ≤ s.rLife
  rLife1 : s.rLife < 1
  rSize0 : 0 ≤ s.rSize
  rSize1 : s.rSize < 1

/-- A whole oracle of per-slot samples is valid when each sample is. -/
def validR (R : ℕ → Sample) : Prop := ∀ i, ValidSample (R i)

/-- Source helper `randomBetween(min, max) = min + Math.random() * (max - min)`,
with the draw made explicit. -/
def randomBetween (lo hi r : ℚ) : ℚ := lo + r * (hi - lo)

/-- Reinitialization of one dead slot inside the spawn loop: jittered
position on x/y with z = 0, velocity along a random unit direction with
random speed, `age = 0`, random lifetime and size, `alpha = 1`. -/
def reinitSlot (smp : Sample) : Slot :=
  { posX := (smp.rx - 1/2) * (2/100)
    posY := (smp.ry - 1/2) * (2/100)
    posZ := 0
    velX := smp.dirX * randomBetween SPEED_MIN SPEED_MAX smp.rSpeed
    velY := smp.dirY * randomBetween SPEED_MIN SPEED_MAX smp.rSpeed
    velZ := smp.dirZ * randomBetween SPEED_MIN SPEED_MAX smp.rSpeed
    age := 0
    lifetime := LIFETIME_MIN + smp.rLife * (LIFETIME_MAX - LIFETIME_MIN)
    size := 6 + smp.rSize * 10
    alpha := 1 }

/-- Squared distance of a slot's position from the origin, as computed in
the impulse pass. -/
def dist2 (s : Slot) : ℚ := s.posX * s.posX + s.posY * s.posY + s.posZ * s.posZ

/-- The shockwave section of the spawn loop: if the slot is alive and its
squared distance from the origin is below `IMPULSE_RADIUS^2`, add an
outward velocity impulse. `sqrtQ` models `Math.sqrt`. -/
def impulse (sqrtQ : ℚ → ℚ) (s : Slot) : Slot :=
  if s.age < s.lifetime then
    if dist2 s < IMPULSE_RADIUS * IMPULSE_RADIUS then
      let dist := max (1/10000) (sqrtQ (dist2 s))
      let falloff := 1 - dist / IMPULSE_RADIUS
      let strength := IMPULSE_STRENGTH * falloff
      { s with
        velX := s.velX + s.posX / dist * strength
        velY := s.velY + s.posY / dist * strength
        velZ := s.velZ + s.posZ / dist * strength }
    else s
  else s

/-- One iteration of the spawn loop at index `i`, acting on the pool plus
the `spawned` counter: reinitialize the slot when the budget is not
exhausted and the slot is dead, then apply the impulse section. -/
def spawnStep (R : ℕ → Sample) (sqrtQ : ℚ → ℚ) (st : (ℕ → Slot) × ℕ) (i : ℕ) :
    (ℕ → Slot) × ℕ :=
  if st.2 < BURST_PARTICLE_COUNT ∧ (st.1 i).lifetime ≤ (st.1 i).age then
    (fun j => if j = i then impulse sqrtQ (reinitSlot (R i)) else st.1 j, st.2 + 1)
  else
    (fun j => if j = i then impulse sqrtQ (st.1 i) else st.1 j, st.2)

/-- The whole spawn loop: fold `spawnStep` over indices `0 .. 4999` with
the `spawned` counter starting at `0`. -/
def spawnScan (R : ℕ → Sample) (sqrtQ : ℚ → ℚ) (p : ℕ → Slot) : (ℕ → Slot) × ℕ :=
  (List.range PARTICLE_CAPACITY).foldl (spawnStep R sqrtQ) (p, 0)

/-- The trigger value delivered by the key-stroke source. -/
structure Trigger where
  stroke : String
  deriving DecidableEq

/-- The modifier keys ignored by `spawnBurst`. -/
def modifierKeys : List String := [r"Alt", r"Control", r"Meta", r"Shift"]

/-- Engine state outside the camera: the pool and the shake magnitude. -/
structure EngineState where
  pool : ℕ → Slot
  shakeMag : ℚ

/-- The `spawnBurst` entry point. A null trigger or a modifier key returns
immediately; otherwise the spawn loop runs, the GPU buffers are marked
dirty (the returned `Bool`), and the shake magnitude is raised to at least
`0.12`. -/
def spawnBurst (R : ℕ → Sample) (sqrtQ : ℚ → ℚ) (trigger : Option Trigger)
    (st : EngineState) : EngineState × Bool :=
  match trigger with
  | none => (st, false)
  | some t =>
      if t.stroke ∈ modifierKeys then (st, false)
      else
        ({ pool := (spawnScan R sqrtQ st.pool).1,
           shakeMag := max st.shakeMag (12/100) }, true)

/-- The pool after a spawn with key `k` (projection helper for statements). -/
def burstPool (R : ℕ → Sample) (sqrtQ : ℚ → ℚ) (k : String) (st : EngineState) :
    ℕ → Slot :=
  ((spawnBurst R sqrtQ (some ⟨k⟩) st).1).pool

/-- The per-frame integrator body for one slot (the `useFrame` loop):
damp the velocity, add gravity to the y velocity, advance the position
with the new velocity, advance the age, recompute alpha from the
normalized lifetime fraction, ease the size, and snap to the dead sentinel
when the updated age crosses the lifetime. Dead slots are skipped. -/
def integrateSlot (dt : ℚ) (s : Slot) : Slot :=
  if s.age < s.lifetime then
    let velX := s.velX * VELOCITY_DAMPING
    let velY := s.velY * VELOCITY_DAMPING + GRAVITY * dt
    let velZ := s.velZ * VELOCITY_DAMPING
    let posX := s.posX + velX * dt
    let posY := s.posY + velY * dt
    let posZ := s.posZ + velZ * dt
    let age1 := s.age + dt
    let t := min 1 (age1 / max (1/10000) s.lifetime)
    let alpha := (1 - t) * (1 - t)
    let size1 := if s.age < 6/100 then s.size * (104/100) else s.size * (999/1000)
    if s.lifetime ≤ age1 then
      { posX := 1000000, posY := 1000000, posZ := 1000000,
        velX := velX, velY := velY, velZ := velZ,
        age := age1, lifetime := s.lifetime, size := 0, alpha := 0 }
    else
      { posX := posX, posY := posY, posZ := posZ,
        velX := velX, velY := velY, velZ := velZ,
        age := age1, lifetime := s.lifetime, size := size1, alpha := alpha }
  else s

/-- The per-frame integrator over the whole pool. -/
def integrate (dt : ℚ) (p : ℕ → Slot) : ℕ → Slot :=
  fun i => if i < PARTICLE_CAPACITY then integrateSlot dt (p i) else p i

/-- Camera-shake state: the lazily captured base position, the current
camera position, and the shake magnitude. -/
structure CamState where
  baseCam : Option (ℚ × ℚ × ℚ)
  cam : ℚ × ℚ × ℚ
  shakeMag : ℚ

/-- The base camera position: the captured one, or (on the very first
frame) the current camera position about to be captured. -/
def camBase (s : CamState) : ℚ × ℚ × ℚ := s.baseCam.getD s.cam

/-- The camera-shake section of the `useFrame` callback: capture the base
position if not yet captured; while the magnitude is positive, offset the
camera by anisotropic random amounts, decay the magnitude linearly
(clamped at `0`), and restore the camera to the exact base position the
moment the magnitude reaches `0`. `r1 r2 r3` model the three
`Math.random()` draws. -/
def shakeFrame (r1 r2 r3 dt : ℚ) (s : CamState) : CamState :=
  let base := camBase s
  if 0 < s.shakeMag then
    let shaken : ℚ × ℚ × ℚ :=
      (base.1 + (r1 - 1/2) * 2 * s.shakeMag,
       base.2.1 + (r2 - 1/2) * 2 * s.shakeMag * (8/10),
       base.2.2 + (r3 - 1/2) * 2 * s.shakeMag * (3/10))
    let mag1 := max 0 (s.shakeMag - SHAKE_DECAY_PER_SEC * dt)
    { baseCam := some base,
      cam := if mag1 = 0 then base else shaken,
      shakeMag := mag1 }
  else
    { baseCam := some base, cam := s.cam, shakeMag := s.shakeMag }

/-- The inputs of one rendered frame, as far as the camera shake is
concerned: the three random draws and the frame delta. -/
structure FrameInput where
  r1 : ℚ
  r2 : ℚ
  r3 : ℚ
  dt : ℚ
  deriving DecidableEq

/-- Run the camera-shake section over a sequence of frames. -/
def runShake (frames : List FrameInput) (s : CamState) : CamState :=
  frames.foldl (fun st f => shakeFrame f.r1 f.r2 f.r3 f.dt st) s

/-- Number of dead slots among indices `0 .. i-1`. -/
def deadCountBelow (p : ℕ → Slot) (i : ℕ) : ℕ :=
  ((Finset.range i).filter (fun j => (p j).lifetime ≤ (p j).age)).card

/-- Number of dead slots in the whole pool. -/
def deadCount (p : ℕ → Slot) : ℕ := deadCountBelow p PARTICLE_CAPACITY

/-- Closed form of what the spawn loop does to slot `i`: the slot is
reinitialized exactly when it is dead and fewer than
`BURST_PARTICLE_COUNT` dead slots precede it, and the impulse section then
acts on the (possibly reinitialized) slot. -/
def spawnSlotResult (R : ℕ → Sample) (sqrtQ : ℚ → ℚ) (p : ℕ → Slot) (i : ℕ) : Slot :=
  if (p i).lifetime ≤ (p i).age ∧ deadCountBelow p i < BURST_PARTICLE_COUNT then
    impulse sqrtQ (reinitSlot (R i))
  else
    impulse sqrtQ (p i)

/-- The rendering invariant for dead slots: alpha and size are `0` and the
position is pinned to the sentinel `(1e6, 1e6, 1e6)`. -/
def deadSlotsBlanked (p : ℕ → Slot) : Prop :=
  ∀ i < PARTICLE_CAPACITY, (p i).lifetime ≤ (p i).age →
    (p i).alpha = 0 ∧ (p i).size = 0 ∧
    (p i).posX = 1000000 ∧ (p i).posY = 1000000 ∧ (p i).posZ = 1000000

/-- Pools reachable from initialization by completed `spawnBurst` and
per-frame integration passes, with valid `Math.random()` draws. -/
inductive ReachablePool : (ℕ → Slot) → Prop where
  | init : ReachablePool initPool
  | spawn (p : ℕ → Slot) (R : ℕ → Sample) (sqrtQ : ℚ → ℚ) (trig : Option Trigger)
      (shake : ℚ) : validR R → ReachablePool p →
      ReachablePool ((spawnBurst R sqrtQ trig ⟨p, shake⟩).1.pool)
  | frame (p : ℕ → Slot) (dt : ℚ) : ReachablePool p → ReachablePool (integrate dt p)

/-! Concrete inputs used to instantiate the theorems below. -/

/-- The key stroke used in the spec's worked examples. -/
def keyA : String := "a"

/-- A modifier key stroke. -/
def keyShift : String := "Shift"

/-- A trivial stand-in for `Math.sqrt` (used where the impulse values do
not matter). -/
def sqrtZero : ℚ → ℚ := fun _ => 0

/-- A degenerate sample (used where the spawned values do not matter). -/
def sampleZero : Sample := ⟨0, 0, 0, 0, 0, 0, 0, 0⟩

/-- An oracle of degenerate samples. -/
def RZero : ℕ → Sample := fun _ => sampleZero

/-- A sample with every raw draw `1/2` and direction `(1, 0, 0)`. -/
def sampleHalf : Sample := ⟨1/2, 1/2, 1, 0, 0, 1/2, 1/2, 1/2⟩

/-- An oracle of `sampleHalf` samples; all draws lie in `[0, 1)`. -/
def RHalf : ℕ → Sample := fun _ => sampleHalf

/-- Every slot alive at `(1e-5, 0, 0)`: distance from the origin below the
`1e-4` clamp of the impulse pass. -/
def poolCenter : ℕ → Slot := fun _ => ⟨1/100000, 0, 0, 0, 0, 0, 0, 1, 1, 1⟩

/-- An exact square root at the only squared distance occurring in
`poolCenter`. -/
def sqrtCenter : ℚ → ℚ := fun q => if q = 1/10000000000 then 1/100000 else 0

/-- Every slot alive at `(1/10, 0, 0)`. -/
def poolTenth : ℕ → Slot := fun _ => ⟨1/10, 0, 0, 0, 0, 0, 0, 1, 1, 1⟩

/-- An exact square root at the only squared distance occurring in
`poolTenth`. -/
def sqrtTenth : ℚ → ℚ := fun q => if q = 1/100 then 1/10 else 0

/-- Every slot alive at the origin with age `0` and lifetime `1`. -/
def poolUnit : ℕ → Slot := fun _ => ⟨0, 0, 0, 0, 0, 0, 0, 1, 1, 1⟩

/-- Every slot alive with the tiny lifetime `5e-5`, below the `1e-4`
denominator clamp of the alpha computation. -/
def poolTiny : ℕ → Slot := fun _ => ⟨0, 0, 0, 0, 0, 0, 0, 1/20000, 1, 1⟩

/-- Every slot alive with age `0.05`, just below the `0.06` size-pop
threshold. -/
def poolPop : ℕ → Slot := fun _ => ⟨0, 0, 0, 0, 0, 0, 1/20, 1, 1, 1⟩

/-! Basic facts about the impulse section. -/

@[simp]
theorem impulse_age (sqrtQ : ℚ → ℚ) (s : Slot) : (impulse sqrtQ s).age = s.age := by
  unfold impulse
  split_ifs <;> rfl

@[simp]
theorem impulse_lifetime (sqrtQ : ℚ → ℚ) (s : Slot) :
    (impulse sqrtQ s).lifetime = s.lifetime := by
  unfold impulse
  split_ifs <;> rfl

@[simp]
theorem impulse_posX (sqrtQ : ℚ → ℚ) (s : Slot) : (impulse sqrtQ s).posX = s.posX := by
  unfold impulse
  split_ifs <;> rfl

@[simp]
theorem impulse_posY (sqrtQ : ℚ → ℚ) (s : Slot) : (impulse sqrtQ s).posY = s.posY := by
  unfold impulse
  split_ifs <;> rfl

@[simp]
theorem impulse_posZ (sqrtQ : ℚ → ℚ) (s : Slot) : (impulse sqrtQ s).posZ = s.posZ := by
  unfold impulse
  split_ifs <;> rfl

@[simp]
theorem impulse_size (sqrtQ : ℚ → ℚ) (s : Slot) : (impulse sqrtQ s).size = s.size := by
  unfold impulse
  split_ifs <;> rfl

@[simp]
theorem impulse_alpha (sqrtQ : ℚ → ℚ) (s : Slot) : (impulse sqrtQ s).alpha = s.alpha := by
  unfold impulse
  split_ifs <;> rfl

theorem impulse_of_dead (sqrtQ : ℚ → ℚ) (s : Slot) (h : ¬ s.age < s.lifetime) :
    impulse sqrtQ s = s := by
  unfold impulse
  rw [if_neg h]

theorem impulse_of_far (sqrtQ : ℚ → ℚ) (s : Slot)
    (h : ¬ dist2 s < IMPULSE_RADIUS * IMPULSE_RADIUS) :
    impulse sqrtQ s = s := by
  unfold impulse
  split_ifs <;> rfl

theorem impulse_of_near (sqrtQ : ℚ → ℚ) (s : Slot) (ha : s.age < s.lifetime)
    (h : dist2 s < IMPULSE_RADIUS * IMPULSE_RADIUS) :
    impulse sqrtQ s =
      { s with
        velX := s.velX + s.posX / max (1/10000) (sqrtQ (dist2 s)) *
          (IMPULSE_STRENGTH * (1 - max (1/10000) (sqrtQ (dist2 s)) / IMPULSE_RADIUS))
        velY := s.velY + s.posY / max (1/10000) (sqrtQ (dist2 s)) *
          (IMPULSE_STRENGTH * (1 - max (1/10000) (sqrtQ (dist2 s)) / IMPULSE_RADIUS))
        velZ := s.velZ + s.posZ / max (1/10000) (sqrtQ (dist2 s)) *
          (IMPULSE_STRENGTH * (1 - max (1/10000) (sqrtQ (dist2 s)) / IMPULSE_RADIUS)) } := by
  unfold impulse
  rw [if_pos ha, if_pos h]

/-! Closed forms of the integrator body. -/

theorem integrateSlot_of_dead (dt : ℚ) (s : Slot) (h : ¬ s.age < s.lifetime) :
    integrateSlot dt s = s := by
  unfold integrateSlot
  rw [if_neg h]

theorem integrateSlot_of_die (dt : ℚ) (s : Slot) (ha : s.age < s.lifetime)
    (hd : s.lifetime ≤ s.age + dt) :
    integrateSlot dt s =
      { posX := 1000000, posY := 1000000, posZ := 1000000,
        velX := s.velX * VELOCITY_DAMPING,
        velY := s.velY * VELOCITY_DAMPING + GRAVITY * dt,
        velZ := s.velZ * VELOCITY_DAMPING,
        age := s.age + dt, lifetime := s.lifetime, size := 0, alpha := 0 } := by
  unfold integrateSlot
  rw [if_pos ha]
  simp only
  rw [if_pos hd]

theorem integrateSlot_of_survive (dt : ℚ) (s : Slot) (ha : s.age < s.lifetime)
    (hs : s.age + dt < s.lifetime) :
    integrateSlot dt s =
      { posX := s.posX + s.velX * VELOCITY_DAMPING * dt,
        posY := s.posY + (s.velY * VELOCITY_DAMPING + GRAVITY * dt) * dt,
        posZ := s.posZ + s.velZ * VELOCITY_DAMPING * dt,
        velX := s.velX * VELOCITY_DAMPING,
        velY := s.velY * VELOCITY_DAMPING + GRAVITY * dt,
        velZ := s.velZ * VELOCITY_DAMPING,
        age := s.age + dt, lifetime := s.lifetime,
        size := if s.age < 6/100 then s.size * (104/100) else s.size * (999/1000),
        alpha := (1 - min 1 ((s.age + dt) / max (1/10000) s.lifetime)) *
          (1 - min 1 ((s.age + dt) / max (1/10000) s.lifetime)) } := by
  unfold integrateSlot
  rw [if_pos ha]
  simp only
  rw [if_neg (not_le.mpr hs)]

theorem integrate_apply (dt : ℚ) (p : ℕ → Slot) (i : ℕ) (hi : i < PARTICLE_CAPACITY) :
    integrate dt p i = integrateSlot dt (p i) := by
  unfold integrate
  rw [if_pos hi]

/-! Characterization of the spawn loop. -/

theorem deadCountBelow_succ (p : ℕ → Slot) (n : ℕ) :
    deadCountBelow p (n + 1) =
      deadCountBelow p n + if (p n).lifetime ≤ (p n).age then 1 else 0 := by
  unfold deadCountBelow
  rw [Finset.range_succ, Finset.filter_insert]
  split_ifs with h
  · rw [Finset.card_insert_of_not_mem (by simp)]
  · rfl

theorem spawnSlotResult_spawned (R : ℕ → Sample) (sqrtQ : ℚ → ℚ) (p : ℕ → Slot) (i : ℕ)
    (h : (p i).lifetime ≤ (p i).age ∧ deadCountBelow p i < BURST_PARTICLE_COUNT) :
    spawnSlotResult R sqrtQ p i = impulse sqrtQ (reinitSlot (R i)) := by
  unfold spawnSlotResult
  rw [if_pos h]

theorem spawnSlotResult_skipped (R : ℕ → Sample) (sqrtQ : ℚ → ℚ) (p : ℕ → Slot) (i : ℕ)
    (h : ¬ ((p i).lifetime ≤ (p i).age ∧ deadCountBelow p i < BURST_PARTICLE_COUNT)) :
    spawnSlotResult R sqrtQ p i = impulse sqrtQ (p i) := by
  unfold spawnSlotResult
  rw [if_neg h]

theorem spawnStep_eq (R : ℕ → Sample) (sqrtQ : ℚ → ℚ) (q : ℕ → Slot) (c : ℕ) (i : ℕ) :
    spawnStep R sqrtQ (q, c) i =
      if c < BURST_PARTICLE_COUNT ∧ (q i).lifetime ≤ (q i).age then
        (fun j => if j = i then impulse sqrtQ (reinitSlot (R i)) else q j, c + 1)
      else (fun j => if j = i then impulse sqrtQ (q i) else q j, c) := rfl

theorem spawnScan_aux (R : ℕ → Sample) (sqrtQ : ℚ → ℚ) (p : ℕ → Slot) (n : ℕ) :
    (List.range n).foldl (spawnStep R sqrtQ) (p, 0) =
      (fun j => if j < n then spawnSlotResult R sqrtQ p j else p j,
        min (deadCountBelow p n) BURST_PARTICLE_COUNT) := by
  induction n with
  | zero =>
      refine Prod.ext (funext fun j => ?_) ?_
      · simp
      · simp [deadCountBelow]
  | succ n ih =>
      rw [List.range_succ, List.foldl_append, ih, List.foldl_cons, List.foldl_nil,
        spawnStep_eq]
      have hsn : (if n < n then spawnSlotResult R sqrtQ p n else p n) = p n :=
        if_neg (lt_irrefl n)
      rw [hsn]
      have hmin : (min (deadCountBelow p n) BURST_PARTICLE_COUNT < BURST_PARTICLE_COUNT) ↔
          deadCountBelow p n < BURST_PARTICLE_COUNT := by omega
      by_cases hd : (p n).lifetime ≤ (p n).age
      · by_cases hc : deadCountBelow p n < BURST_PARTICLE_COUNT
        · have hcond : min (deadCountBelow p n) BURST_PARTICLE_COUNT <
              BURST_PARTICLE_COUNT ∧ (p n).lifetime ≤ (p n).age := ⟨hmin.mpr hc, hd⟩
          rw [if_pos hcond]
          refine Prod.ext (funext fun j => ?_) ?_
          · dsimp only
            by_cases hj : j = n
            · subst hj
              rw [if_pos rfl, if_pos (Nat.lt_succ_self j),
                spawnSlotResult_spawned R sqrtQ p j ⟨hd, hc⟩]
            · rw [if_neg hj]
              by_cases hjn : j < n
              · rw [if_pos hjn, if_pos (Nat.lt_succ_of_lt hjn)]
              · rw [if_neg hjn, if_neg (by omega)]
          · dsimp only
            rw [deadCountBelow_succ, if_pos hd]
            omega
        · have hcond : ¬ (min (deadCountBelow p n) BURST_PARTICLE_COUNT <
              BURST_PARTICLE_COUNT ∧ (p n).lifetime ≤ (p n).age) :=
            fun h => hc (hmin.mp h.1)
          rw [if_neg hcond]
          refine Prod.ext (funext fun j => ?_) ?_
          · dsimp only
            by_cases hj : j = n
            · subst hj
              rw [if_pos rfl, if_pos (Nat.lt_succ_self j),
                spawnSlotResult_skipped R sqrtQ p j (fun h => hc h.2)]
            · rw [if_neg hj]
              by_cases hjn : j < n
              · rw [if_pos hjn, if_pos (Nat.lt_succ_of_lt hjn)]
              · rw [if_neg hjn, if_neg (by omega)]
          · dsimp only
            rw [deadCountBelow_succ, if_pos hd]
            omega
      · have hcond : ¬ (min (deadCountBelow p n) BURST_PARTICLE_COUNT <
            BURST_PARTICLE_COUNT ∧ (p n).lifetime ≤ (p n).age) := fun h => hd h.2
        rw [if_neg hcond]
        refine Prod.ext (funext fun j => ?_) ?_
        · dsimp only
          by_cases hj : j = n
          · subst hj
            rw [if_pos rfl, if_pos (Nat.lt_succ_self j),
              spawnSlotResult_skipped R sqrtQ p j (fun h => hd h.1)]
          · rw [if_neg hj]
            by_cases hjn : j < n
            · rw [if_pos hjn, if_pos (Nat.lt_succ_of_lt hjn)]
            · rw [if_neg hjn, if_neg (by omega)]
        · dsimp only
          rw [deadCountBelow_succ, if_neg hd]
          omega

theorem spawnScan_apply (R : ℕ → Sample) (sqrtQ : ℚ → ℚ) (p : ℕ → Slot) (i : ℕ)
    (hi : i < PARTICLE_CAPACITY) :
    (spawnScan R sqrtQ p).1 i = spawnSlotResult R sqrtQ p i := by
  have h : (spawnScan R sqrtQ p).1 =
      fun j => if j < PARTICLE_CAPACITY then spawnSlotResult R sqrtQ p j else p j :=
    congrArg Prod.fst (spawnScan_aux R sqrtQ p PARTICLE_CAPACITY)
  rw [h]
  exact if_pos hi

theorem spawnScan_eq (R : ℕ → Sample) (sqrtQ : ℚ → ℚ) (p : ℕ → Slot) :
    spawnScan R sqrtQ p =
      (fun j => if j < PARTICLE_CAPACITY then spawnSlotResult R sqrtQ p j else p j,
        min (deadCountBelow p PARTICLE_CAPACITY) BURST_PARTICLE_COUNT) :=
  spawnScan_aux R sqrtQ p PARTICLE_CAPACITY

theorem spawnBurst_none (R : ℕ → Sample) (sqrtQ : ℚ → ℚ) (st : EngineState) :
    spawnBurst R sqrtQ none st = (st, false) := rfl

theorem spawnBurst_modifier (R : ℕ → Sample) (sqrtQ : ℚ → ℚ) (t : Trigger)
    (st : EngineState) (hk : t.stroke ∈ modifierKeys) :
    spawnBurst R sqrtQ (some t) st = (st, false) := by
  simp only [spawnBurst]
  rw [if_pos hk]

theorem spawnBurst_pool_apply (R : ℕ → Sample) (sqrtQ : ℚ → ℚ) (t : Trigger)
    (st : EngineState) (hk : t.stroke ∉ modifierKeys) (i : ℕ)
    (hi : i < PARTICLE_CAPACITY) :
    (spawnBurst R sqrtQ (some t) st).1.pool i = spawnSlotResult R sqrtQ st.pool i := by
  simp only [spawnBurst]
  rw [if_neg hk, spawnScan_eq]
  exact if_pos hi

theorem spawnBurst_pool_apply_high (R : ℕ → Sample) (sqrtQ : ℚ → ℚ) (t : Trigger)
    (st : EngineState) (hk : t.stroke ∉ modifierKeys) (i : ℕ)
    (hi : ¬ i < PARTICLE_CAPACITY) :
    (spawnBurst R sqrtQ (some t) st).1.pool i = st.pool i := by
  simp only [spawnBurst]
  rw [if_neg hk, spawnScan_eq]
  exact if_neg hi

theorem spawnBurst_shakeMag (R : ℕ → Sample) (sqrtQ : ℚ → ℚ) (t : Trigger)
    (st : EngineState) (hk : t.stroke ∉ modifierKeys) :
    (spawnBurst R sqrtQ (some t) st).1.shakeMag = max st.shakeMag (12/100) := by
  simp only [spawnBurst]
  rw [if_neg hk]

theorem burstPool_apply (R : ℕ → Sample) (sqrtQ : ℚ → ℚ) (k : String) (st : EngineState)
    (hk : k ∉ modifierKeys) (i : ℕ) (hi : i < PARTICLE_CAPACITY) :
    burstPool R sqrtQ k st i = spawnSlotResult R sqrtQ st.pool i :=
  spawnBurst_pool_apply R sqrtQ ⟨k⟩ st hk i hi

theorem reinitSlot_alive (smp : Sample) (hv : ValidSample smp) :
    (reinitSlot smp).age < (reinitSlot smp).lifetime := by
  have h := hv.rLife0
  simp only [reinitSlot, LIFETIME_MIN, LIFETIME_MAX]
  nlinarith

theorem spawnEligible_card (p : ℕ → Slot) (n : ℕ) :
    ((Finset.range n).filter
        (fun i => (p i).lifetime ≤ (p i).age ∧
          deadCountBelow p i < BURST_PARTICLE_COUNT)).card
      = min (deadCountBelow p n) BURST_PARTICLE_COUNT := by
  induction n with
  | zero => simp [deadCountBelow]
  | succ n ih =>
      rw [Finset.range_succ, Finset.filter_insert, deadCountBelow_succ]
      by_cases hd : (p n).lifetime ≤ (p n).age
      · by_cases hc : deadCountBelow p n < BURST_PARTICLE_COUNT
        · rw [if_pos ⟨hd, hc⟩, Finset.card_insert_of_not_mem (by simp), ih,
            if_pos hd]
          omega
        · rw [if_neg (fun h => hc h.2), ih, if_pos hd]
          omega
      · rw [if_neg (fun h => hd h.1), ih, if_neg hd]
        omega

/-! Camera shake. -/

theorem runShake_nil (s : CamState) : runShake [] s = s := rfl

theorem runShake_cons (f : FrameInput) (fs : List FrameInput) (s : CamState) :
    runShake (f :: fs) s = runShake fs (shakeFrame f.r1 f.r2 f.r3 f.dt s) := rfl

theorem camBase_mk (b : ℚ × ℚ × ℚ) (c : ℚ × ℚ × ℚ) (m : ℚ) :
    camBase ⟨some b, c, m⟩ = b := rfl

theorem shakeFrame_of_zero (r1 r2 r3 dt : ℚ) (s : CamState) (h : ¬ 0 < s.shakeMag) :
    shakeFrame r1 r2 r3 dt s =
      { baseCam := some (camBase s), cam := s.cam, shakeMag := s.shakeMag } := by
  unfold shakeFrame
  rw [if_neg h]

theorem shakeFrame_of_pos (r1 r2 r3 dt : ℚ) (s : CamState) (h : 0 < s.shakeMag) :
    shakeFrame r1 r2 r3 dt s =
      { baseCam := some (camBase s),
        cam := if max 0 (s.shakeMag - SHAKE_DECAY_PER_SEC * dt) = 0 then camBase s
          else ((camBase s).1 + (r1 - 1/2) * 2 * s.shakeMag,
            (camBase s).2.1 + (r2 - 1/2) * 2 * s.shakeMag * (8/10),
            (camBase s).2.2 + (r3 - 1/2) * 2 * s.shakeMag * (3/10)),
        shakeMag := max 0 (s.shakeMag - SHAKE_DECAY_PER_SEC * dt) } := by
  unfold shakeFrame
  rw [if_pos h]

theorem runShake_inv (frames : List FrameInput) :
    ∀ (s : CamState) (b : ℚ × ℚ × ℚ), camBase s = b → 0 ≤ s.shakeMag →
      (s.shakeMag = 0 → s.cam = b) → (∀ f ∈ frames, 0 ≤ f.dt) →
      s.shakeMag ≤ (frames.map FrameInput.dt).sum →
      (runShake frames s).shakeMag = 0 ∧ (runShake frames s).cam = b := by
  induction frames with
  | nil =>
      intro s b hb h0 hc _ hsum
      rw [runShake_nil]
      have hz : s.shakeMag = 0 := le_antisymm (by simpa using hsum) h0
      exact ⟨hz, hc hz⟩
  | cons f fs ih =>
      intro s b hb h0 hc hdt hsum
      rw [runShake_cons]
      have hdts : ∀ g ∈ fs, 0 ≤ g.dt := fun g hg => hdt g (List.mem_cons_of_mem f hg)
      have hrest : 0 ≤ (fs.map FrameInput.dt).sum := by
        refine List.sum_nonneg ?_
        intro x hx
        obtain ⟨g, hg, rfl⟩ := List.mem_map.mp hx
        exact hdts g hg
      have hsum1 : s.shakeMag ≤ f.dt + (fs.map FrameInput.dt).sum := by
        simpa using hsum
      by_cases hpos : 0 < s.shakeMag
      · rw [shakeFrame_of_pos f.r1 f.r2 f.r3 f.dt s hpos]
        refine ih _ b ((camBase_mk _ _ _).trans hb) (le_max_left 0 _)
          (fun hz => ?_) hdts ?_
        · have hz1 : max 0 (s.shakeMag - SHAKE_DECAY_PER_SEC * f.dt) = 0 := hz
          exact (if_pos hz1).trans hb
        · have hS : SHAKE_DECAY_PER_SEC = 1 := rfl
          have hdtf : 0 ≤ f.dt := hdt f (List.mem_cons_self f fs)
          refine max_le hrest ?_
          rw [hS]
          linarith
      · rw [shakeFrame_of_zero f.r1 f.r2 f.r3 f.dt s hpos]
        have hz : s.shakeMag = 0 := le_antisymm (not_lt.mp hpos) h0
        refine ih _ b ((camBase_mk _ _ _).trans hb) h0 (fun _ => hc hz) hdts
          (by simpa [hz] using hrest)

/-! Preservation of the dead-slot rendering invariant. -/

theorem integrate_preserves_blank (dt : ℚ) (p : ℕ → Slot) (h : deadSlotsBlanked p) :
    deadSlotsBlanked (integrate dt p) := by
  intro i hi hdead
  rw [integrate_apply dt p i hi] at hdead ⊢
  by_cases ha : (p i).age < (p i).lifetime
  · by_cases hdie : (p i).lifetime ≤ (p i).age + dt
    · rw [integrateSlot_of_die dt (p i) ha hdie]
      exact ⟨rfl, rfl, rfl, rfl, rfl⟩
    · exfalso
      rw [integrateSlot_of_survive dt (p i) ha (not_le.mp hdie)] at hdead
      exact hdie hdead
  · rw [integrateSlot_of_dead dt (p i) ha] at hdead ⊢
    exact h i hi hdead

theorem spawn_preserves_blank (R : ℕ → Sample) (sqrtQ : ℚ → ℚ) (trig : Option Trigger)
    (st : EngineState) (hR : validR R) (h : deadSlotsBlanked st.pool) :
    deadSlotsBlanked ((spawnBurst R sqrtQ trig st).1.pool) := by
  cases trig with
  | none =>
      rw [spawnBurst_none]
      exact h
  | some t =>
      by_cases hk : t.stroke ∈ modifierKeys
      · rw [spawnBurst_modifier R sqrtQ t st hk]
        exact h
      · intro i hi hdead
        rw [spawnBurst_pool_apply R sqrtQ t st hk i hi] at hdead ⊢
        by_cases hc : (st.pool i).lifetime ≤ (st.pool i).age ∧
            deadCountBelow st.pool i < BURST_PARTICLE_COUNT
        · exfalso
          rw [spawnSlotResult_spawned R sqrtQ st.pool i hc, impulse_lifetime,
            impulse_age] at hdead
          exact absurd hdead (not_le.mpr (reinitSlot_alive (R i) (hR i)))
        · rw [spawnSlotResult_skipped R sqrtQ st.pool i hc] at hdead ⊢
          rw [impulse_lifetime, impulse_age] at hdead
          rw [impulse_alpha, impulse_size, impulse_posX, impulse_posY, impulse_posZ]
          exact h i hi hdead

theorem validR_RHalf : validR RHalf := by
  intro i
  constructor <;> norm_num [RHalf, sampleHalf]

/-! Claim theorems. -/

/-- C7: a single `update(dt)` with `dt` strictly greater than an alive
particle's remaining lifetime snaps it to the sentinel `(1e6, 1e6, 1e6)`
with `alpha = 0` and `size = 0`, and any further update leaves the dead
slot entirely unchanged. -/
theorem overshoot_kills_to_sentinel (p : ℕ → Slot) (dt dt1 : ℚ) (i : ℕ)
    (hi : i < PARTICLE_CAPACITY) (ha : (p i).age < (p i).lifetime)
    (hdt : (p i).lifetime - (p i).age < dt) :
    (integrate dt p i).posX = 1000000 ∧ (integrate dt p i).posY = 1000000 ∧
    (integrate dt p i).posZ = 1000000 ∧ (integrate dt p i).alpha = 0 ∧
    (integrate dt p i).size = 0 ∧
    integrate dt1 (integrate dt p) i = integrate dt p i := by
  have hdie : (p i).lifetime ≤ (p i).age + dt := by linarith
  rw [integrate_apply dt p i hi, integrateSlot_of_die dt (p i) ha hdie]
  refine ⟨rfl, rfl, rfl, rfl, rfl, ?_⟩
  rw [integrate_apply dt1 (integrate dt p) i hi, integrate_apply dt p i hi,
    integrateSlot_of_die dt (p i) ha hdie]
  exact integrateSlot_of_dead dt1 _ (not_lt.mpr hdie)

/-- C7 witness: a particle with one second of remaining lifetime, stepped
by two seconds, then by three more. -/
theorem overshoot_kills_to_sentinel_witness :
    (integrate 2 poolUnit 0).posX = 1000000 ∧ (integrate 2 poolUnit 0).posY = 1000000 ∧
    (integrate 2 poolUnit 0).posZ = 1000000 ∧ (integrate 2 poolUnit 0).alpha = 0 ∧
    (integrate 2 poolUnit 0).size = 0 ∧
    integrate 3 (integrate 2 poolUnit) 0 = integrate 2 poolUnit 0 :=
  overshoot_kills_to_sentinel poolUnit 2 3 0 (by decide) (by norm_num [poolUnit])
    (by norm_num [poolUnit])

/-- C8: a spawn call with a null trigger, or with a modifier key
(Alt/Control/Meta/Shift), is a complete no-op: the pool, the shake
magnitude and the dirty flag are all unchanged. -/
theorem modifier_or_null_trigger_noop (R : ℕ → Sample) (sqrtQ : ℚ → ℚ)
    (st : EngineState) (k : String) (hk : k ∈ modifierKeys) :
    spawnBurst R sqrtQ none st = (st, false) ∧
    spawnBurst R sqrtQ (some ⟨k⟩) st = (st, false) :=
  ⟨spawnBurst_none R sqrtQ st, spawnBurst_modifier R sqrtQ ⟨k⟩ st hk⟩

/-- C8 witness: the `"Shift"` key on a pool with nonzero shake. -/
theorem modifier_or_null_trigger_noop_witness :
    keyShift ∈ modifierKeys ∧
    spawnBurst RHalf sqrtZero none ⟨initPool, 7⟩ = (⟨initPool, 7⟩, false) ∧
    spawnBurst RHalf sqrtZero (some ⟨keyShift⟩) ⟨initPool, 7⟩ = (⟨initPool, 7⟩, false) :=
  ⟨by decide,
    modifier_or_null_trigger_noop RHalf sqrtZero ⟨initPool, 7⟩ keyShift (by decide)⟩

/-- C9: a spawn call with a non-null, non-modifier key sets the shake
magnitude to `max(current, 0.12)`: at least `0.12`, and never below the
current value. -/
theorem spawn_raises_shake (R : ℕ → Sample) (sqrtQ : ℚ → ℚ) (st : EngineState)
    (k : String) (hk : k ∉ modifierKeys) :
    (spawnBurst R sqrtQ (some ⟨k⟩) st).1.shakeMag = max st.shakeMag (12/100) ∧
    12/100 ≤ (spawnBurst R sqrtQ (some ⟨k⟩) st).1.shakeMag ∧
    st.shakeMag ≤ (spawnBurst R sqrtQ (some ⟨k⟩) st).1.shakeMag := by
  have h := spawnBurst_shakeMag R sqrtQ ⟨k⟩ st hk
  refine ⟨h, ?_, ?_⟩
  · rw [h]
    exact le_max_right _ _
  · rw [h]
    exact le_max_left _ _

/-- C9 witness: the `"a"` key with current shake `1/4`. -/
theorem spawn_raises_shake_witness :
    keyA ∉ modifierKeys ∧
    (spawnBurst RHalf sqrtZero (some ⟨keyA⟩) ⟨initPool, 1/4⟩).1.shakeMag
        = max (1/4) (12/100) ∧
    12/100 ≤ (spawnBurst RHalf sqrtZero (some ⟨keyA⟩) ⟨initPool, 1/4⟩).1.shakeMag ∧
    1/4 ≤ (spawnBurst RHalf sqrtZero (some ⟨keyA⟩) ⟨initPool, 1/4⟩).1.shakeMag :=
  ⟨by decide, spawn_raises_shake RHalf sqrtZero ⟨initPool, 1/4⟩ keyA (by decide)⟩

/-- C10: a spawn pass leaves every slot that was already alive unchanged
except possibly its velocity, and leaves every dead slot that the burst
budget does not reach entirely unchanged. -/
theorem spawn_preserves_nonspawned_slots (R : ℕ → Sample) (sqrtQ : ℚ → ℚ)
    (st : EngineState) (k : String) (i : ℕ) (hk : k ∉ modifierKeys)
    (hi : i < PARTICLE_CAPACITY) :
    ((st.pool i).age < (st.pool i).lifetime →
      (burstPool R sqrtQ k st i).posX = (st.pool i).posX ∧
      (burstPool R sqrtQ k st i).posY = (st.pool i).posY ∧
      (burstPool R sqrtQ k st i).posZ = (st.pool i).posZ ∧
      (burstPool R sqrtQ k st i).age = (st.pool i).age ∧
      (burstPool R sqrtQ k st i).lifetime = (st.pool i).lifetime ∧
      (burstPool R sqrtQ k st i).size = (st.pool i).size ∧
      (burstPool R sqrtQ k st i).alpha = (st.pool i).alpha) ∧
    ((st.pool i).lifetime ≤ (st.pool i).age →
      BURST_PARTICLE_COUNT ≤ deadCountBelow st.pool i →
      burstPool R sqrtQ k st i = st.pool i) := by
  rw [burstPool_apply R sqrtQ k st hk i hi]
  constructor
  · intro ha
    rw [spawnSlotResult_skipped R sqrtQ st.pool i (fun h => absurd h.1 (not_le.mpr ha))]
    exact ⟨impulse_posX sqrtQ _, impulse_posY sqrtQ _, impulse_posZ sqrtQ _,
      impulse_age sqrtQ _, impulse_lifetime sqrtQ _, impulse_size sqrtQ _,
      impulse_alpha sqrtQ _⟩
  · intro hd hbudget
    rw [spawnSlotResult_skipped R sqrtQ st.pool i (fun h => absurd h.2 (not_lt.mpr hbudget))]
    exact impulse_of_dead sqrtQ _ (not_lt.mpr hd)

/-- C10 witness: slot `600` of the all-dead initial pool, which is beyond
the 500-slot burst budget. -/
theorem spawn_preserves_nonspawned_slots_witness :
    ((initPool 600).age < (initPool 600).lifetime →
      (burstPool RHalf sqrtZero keyA ⟨initPool, 0⟩ 600).posX = (initPool 600).posX ∧
      (burstPool RHalf sqrtZero keyA ⟨initPool, 0⟩ 600).posY = (initPool 600).posY ∧
      (burstPool RHalf sqrtZero keyA ⟨initPool, 0⟩ 600).posZ = (initPool 600).posZ ∧
      (burstPool RHalf sqrtZero keyA ⟨initPool, 0⟩ 600).age = (initPool 600).age ∧
      (burstPool RHalf sqrtZero keyA ⟨initPool, 0⟩ 600).lifetime = (initPool 600).lifetime ∧
      (burstPool RHalf sqrtZero keyA ⟨initPool, 0⟩ 600).size = (initPool 600).size ∧
      (burstPool RHalf sqrtZero keyA ⟨initPool, 0⟩ 600).alpha = (initPool 600).alpha) ∧
    ((initPool 600).lifetime ≤ (initPool 600).age →
      BURST_PARTICLE_COUNT ≤ deadCountBelow initPool 600 →
      burstPool RHalf sqrtZero keyA ⟨initPool, 0⟩ 600 = initPool 600) :=
  spawn_preserves_nonspawned_slots RHalf sqrtZero ⟨initPool, 0⟩ keyA 600
    (by decide) (by decide)

/-- C4 counterexample: the claim's alpha formula omits the source's
`max(1e-4, lifetime)` denominator clamp, and the claim's position formula
ignores the death-branch overwrite. At lifetime `5e-5` and `dt = 1e-5` the
source sets alpha to `0.81`, not the claimed `(1 - min(1, newAge/lifetime))^2
= 0.64`; and at lifetime `1` with `dt = 2` the source snaps the position to
the sentinel instead of advancing it by the new velocity. -/
theorem integrator_step_counterexample :
    (poolTiny 0).age < (poolTiny 0).lifetime ∧
    (poolTiny 0).age + 1/100000 < (poolTiny 0).lifetime ∧
    (integrate (1/100000) poolTiny 0).alpha = 81/100 ∧
    ¬ ((81/100 : ℚ) =
      (1 - min 1 (((poolTiny 0).age + 1/100000) / (poolTiny 0).lifetime)) *
      (1 - min 1 (((poolTiny 0).age + 1/100000) / (poolTiny 0).lifetime))) ∧
    (poolUnit 0).age < (poolUnit 0).lifetime ∧
    (integrate 2 poolUnit 0).posY = 1000000 ∧
    ¬ ((1000000 : ℚ) =
      (poolUnit 0).posY + ((poolUnit 0).velY * VELOCITY_DAMPING + GRAVITY * 2) * 2) := by
  have h1 : (poolTiny 0).age < (poolTiny 0).lifetime := by norm_num [poolTiny]
  have h2 : (poolTiny 0).age + 1/100000 < (poolTiny 0).lifetime := by norm_num [poolTiny]
  have h3 : (poolUnit 0).age < (poolUnit 0).lifetime := by norm_num [poolUnit]
  have h4 : (poolUnit 0).lifetime ≤ (poolUnit 0).age + 2 := by norm_num [poolUnit]
  refine ⟨h1, h2, ?_, ?_, h3, ?_, ?_⟩
  · rw [integrate_apply (1/100000) poolTiny 0 (by decide),
      integrateSlot_of_survive (1/100000) (poolTiny 0) h1 h2]
    norm_num [poolTiny, min_def, max_def]
  · norm_num [poolTiny, min_def]
  · rw [integrate_apply 2 poolUnit 0 (by decide),
      integrateSlot_of_die 2 (poolUnit 0) h3 h4]
  · norm_num [poolUnit, VELOCITY_DAMPING, GRAVITY]

/-- C4 (amended): for every alive particle and every `update(dt)` after
which the particle is still alive, the new velocity is
`(0.98 vx, 0.98 vy + (-8) dt, 0.98 vz)` (gravity added after damping on
y), the position advances by the new velocity times `dt`, the age advances
by `dt`, and alpha becomes `(1 - t)^2` with
`t = min(1, newAge / max(1e-4, lifetime))`. (For a step that kills the
particle, the velocity and age updates still hold but position, alpha and
size are overwritten by the death rules.) -/
theorem integrator_step_surviving (p : ℕ → Slot) (dt : ℚ) (i : ℕ)
    (hi : i < PARTICLE_CAPACITY) (ha : (p i).age < (p i).lifetime)
    (hs : (p i).age + dt < (p i).lifetime) :
    (integrate dt p i).velX = (p i).velX * VELOCITY_DAMPING ∧
    (integrate dt p i).velY = (p i).velY * VELOCITY_DAMPING + GRAVITY * dt ∧
    (integrate dt p i).velZ = (p i).velZ * VELOCITY_DAMPING ∧
    (integrate dt p i).posX = (p i).posX + (p i).velX * VELOCITY_DAMPING * dt ∧
    (integrate dt p i).posY
        = (p i).posY + ((p i).velY * VELOCITY_DAMPING + GRAVITY * dt) * dt ∧
    (integrate dt p i).posZ = (p i).posZ + (p i).velZ * VELOCITY_DAMPING * dt ∧
    (integrate dt p i).age = (p i).age + dt ∧
    (integrate dt p i).alpha =
      (1 - min 1 (((p i).age + dt) / max (1/10000) (p i).lifetime)) *
      (1 - min 1 (((p i).age + dt) / max (1/10000) (p i).lifetime)) := by
  rw [integrate_apply dt p i hi, integrateSlot_of_survive dt (p i) ha hs]
  exact ⟨rfl, rfl, rfl, rfl, rfl, rfl, rfl, rfl⟩

/-- C4 witness: a half-second step of a fresh particle with lifetime one
second. -/
theorem integrator_step_surviving_witness :
    (integrate (1/2) poolUnit 0).velX = (poolUnit 0).velX * VELOCITY_DAMPING ∧
    (integrate (1/2) poolUnit 0).velY
        = (poolUnit 0).velY * VELOCITY_DAMPING + GRAVITY * (1/2) ∧
    (integrate (1/2) poolUnit 0).velZ = (poolUnit 0).velZ * VELOCITY_DAMPING ∧
    (integrate (1/2) poolUnit 0).posX
        = (poolUnit 0).posX + (poolUnit 0).velX * VELOCITY_DAMPING * (1/2) ∧
    (integrate (1/2) poolUnit 0).posY
        = (poolUnit 0).posY + ((poolUnit 0).velY * VELOCITY_DAMPING + GRAVITY * (1/2)) * (1/2) ∧
    (integrate (1/2) poolUnit 0).posZ
        = (poolUnit 0).posZ + (poolUnit 0).velZ * VELOCITY_DAMPING * (1/2) ∧
    (integrate (1/2) poolUnit 0).age = (poolUnit 0).age + 1/2 ∧
    (integrate (1/2) poolUnit 0).alpha =
      (1 - min 1 (((poolUnit 0).age + 1/2) / max (1/10000) (poolUnit 0).lifetime)) *
      (1 - min 1 (((poolUnit 0).age + 1/2) / max (1/10000) (poolUnit 0).lifetime)) :=
  integrator_step_surviving poolUnit (1/2) 0 (by decide) (by norm_num [poolUnit])
    (by norm_num [poolUnit])

/-- C5 counterexample: the size-easing threshold reads the age from before
the advance, not after it. With age `0.05`, `dt = 0.02` the post-update
age is `0.07 >= 0.06`, yet the source still multiplies the size by `1.04`
(the claim predicts `0.999`). -/
theorem size_easing_counterexample :
    (poolPop 0).age < (poolPop 0).lifetime ∧
    (poolPop 0).age + 1/50 < (poolPop 0).lifetime ∧
    (integrate (1/50) poolPop 0).age = 7/100 ∧ (6/100 : ℚ) ≤ 7/100 ∧
    (integrate (1/50) poolPop 0).size = 104/100 ∧
    ¬ ((104/100 : ℚ) = (poolPop 0).size * (999/1000)) := by
  have h1 : (poolPop 0).age < (poolPop 0).lifetime := by norm_num [poolPop]
  have h2 : (poolPop 0).age + 1/50 < (poolPop 0).lifetime := by norm_num [poolPop]
  refine ⟨h1, h2, ?_, by norm_num, ?_, by norm_num [poolPop]⟩
  · rw [integrate_apply (1/50) poolPop 0 (by decide),
      integrateSlot_of_survive (1/50) (poolPop 0) h1 h2]
    norm_num [poolPop]
  · rw [integrate_apply (1/50) poolPop 0 (by decide),
      integrateSlot_of_survive (1/50) (poolPop 0) h1 h2]
    norm_num [poolPop]

/-- C5 (amended): for every alive particle and every `update(dt)` that
does not kill it, the size is multiplied by `1.04` when the age from
before the advance is below `0.06` seconds, and by `0.999` otherwise. -/
theorem size_easing_uses_preupdate_age (p : ℕ → Slot) (dt : ℚ) (i : ℕ)
    (hi : i < PARTICLE_CAPACITY) (ha : (p i).age < (p i).lifetime)
    (hs : (p i).age + dt < (p i).lifetime) :
    (integrate dt p i).size =
      if (p i).age < 6/100 then (p i).size * (104/100)
      else (p i).size * (999/1000) := by
  rw [integrate_apply dt p i hi, integrateSlot_of_survive dt (p i) ha hs]

/-- C5 witness: the `poolPop` particle stepped by `0.02` seconds. -/
theorem size_easing_uses_preupdate_age_witness :
    (integrate (1/50) poolPop 0).size =
      if (poolPop 0).age < 6/100 then (poolPop 0).size * (104/100)
      else (poolPop 0).size * (999/1000) :=
  size_easing_uses_preupdate_age poolPop (1/50) 0 (by decide) (by norm_num [poolPop])
    (by norm_num [poolPop])

/-- C1: in every pool reachable from initialization by completed spawn and
per-frame update passes, every dead slot (`age >= lifetime`) has
`alpha = 0`, `size = 0`, and position pinned to the sentinel
`(1e6, 1e6, 1e6)`. -/
theorem dead_slots_render_blank (p : ℕ → Slot) (h : ReachablePool p) :
    deadSlotsBlanked p := by
  induction h with
  | init =>
      intro i hi hdead
      exact ⟨rfl, rfl, rfl, rfl, rfl⟩
  | spawn p R sqrtQ trig shake hR hp ih =>
      exact spawn_preserves_blank R sqrtQ trig ⟨p, shake⟩ hR ih
  | frame p dt hp ih =>
      exact integrate_preserves_blank dt p ih

/-- C1 witness: the invariant evaluated after one spawn with key `"a"` and
one one-second frame from the initial pool. -/
theorem dead_slots_render_blank_witness :
    deadSlotsBlanked
      (integrate 1 ((spawnBurst RHalf sqrtZero (some ⟨keyA⟩) ⟨initPool, 0⟩).1.pool)) :=
  dead_slots_render_blank _
    (ReachablePool.frame _ 1
      (ReachablePool.spawn initPool RHalf sqrtZero (some ⟨keyA⟩) 0 validR_RHalf
        ReachablePool.init))

/-- C6: with the base camera position captured and no further spawns, once
the nonnegative frame deltas sum to `shakeMag / SHAKE_DECAY_PER_SEC`
seconds the shake magnitude is exactly `0` and the camera is restored to
exactly the base position; both persist for every longer frame sequence
satisfying the same bound. -/
theorem shake_decays_to_zero_and_base (frames : List FrameInput) (s : CamState)
    (hm : 0 < s.shakeMag) (hdt : ∀ f ∈ frames, 0 ≤ f.dt)
    (hsum : s.shakeMag / SHAKE_DECAY_PER_SEC ≤ (frames.map FrameInput.dt).sum) :
    (runShake frames s).shakeMag = 0 ∧ (runShake frames s).cam = camBase s :=
  runShake_inv frames s (camBase s) rfl (le_of_lt hm)
    (fun h => absurd h (ne_of_gt hm)) hdt
    (by simpa [SHAKE_DECAY_PER_SEC] using hsum)

/-- C6 witness: shake magnitude `1/2` decayed over two quarter-second
frames. -/
theorem shake_decays_to_zero_and_base_witness :
    (0 : ℚ) < (1/2 : ℚ) ∧
    (runShake [⟨1, 0, 0, 1/4⟩, ⟨0, 1, 0, 1/4⟩]
        ⟨some (0, 0, 5), (3, 4, 5), 1/2⟩).shakeMag = 0 ∧
    (runShake [⟨1, 0, 0, 1/4⟩, ⟨0, 1, 0, 1/4⟩]
        ⟨some (0, 0, 5), (3, 4, 5), 1/2⟩).cam
      = camBase ⟨some (0, 0, 5), (3, 4, 5), 1/2⟩ := by
  refine ⟨by norm_num, ?_⟩
  refine shake_decays_to_zero_and_base [⟨1, 0, 0, 1/4⟩, ⟨0, 1, 0, 1/4⟩]
    ⟨some (0, 0, 5), (3, 4, 5), 1/2⟩ (by norm_num) ?_ ?_
  · intro f hf
    rcases List.mem_cons.mp hf with h | h
    · rw [h]
      norm_num
    · rcases List.mem_cons.mp h with h1 | h1
      · rw [h1]
        norm_num
      · exact absurd h1 (List.not_mem_nil f)
  · norm_num [SHAKE_DECAY_PER_SEC]

theorem spawn_transition_iff (R : ℕ → Sample) (sqrtQ : ℚ → ℚ) (st : EngineState)
    (k : String) (hR : validR R) (hk : k ∉ modifierKeys) (i : ℕ)
    (hi : i < PARTICLE_CAPACITY) :
    ((st.pool i).lifetime ≤ (st.pool i).age ∧
      (burstPool R sqrtQ k st i).age < (burstPool R sqrtQ k st i).lifetime) ↔
    ((st.pool i).lifetime ≤ (st.pool i).age ∧
      deadCountBelow st.pool i < BURST_PARTICLE_COUNT) := by
  rw [burstPool_apply R sqrtQ k st hk i hi]
  constructor
  · rintro ⟨hd, haliv⟩
    refine ⟨hd, ?_⟩
    by_contra hc
    rw [spawnSlotResult_skipped R sqrtQ st.pool i (fun h => hc h.2), impulse_age,
      impulse_lifetime] at haliv
    exact absurd hd (not_le.mpr haliv)
  · rintro ⟨hd, hc⟩
    refine ⟨hd, ?_⟩
    rw [spawnSlotResult_spawned R sqrtQ st.pool i ⟨hd, hc⟩, impulse_age,
      impulse_lifetime]
    exact reinitSlot_alive (R i) (hR i)

/-- C2: a spawn with a non-null, non-modifier key turns exactly
`min(500, number of dead slots)` slots from dead to alive; in particular,
on an all-dead pool exactly `500` slots become alive, each with age `0`,
x/y positions within `0.01` of the origin and `z` exactly `0`. -/
theorem spawn_transition_count (R : ℕ → Sample) (sqrtQ : ℚ → ℚ) (st : EngineState)
    (k : String) (hR : validR R) (hk : k ∉ modifierKeys) :
    ((Finset.range PARTICLE_CAPACITY).filter
        (fun i => (st.pool i).lifetime ≤ (st.pool i).age ∧
          (burstPool R sqrtQ k st i).age < (burstPool R sqrtQ k st i).lifetime)).card
      = min BURST_PARTICLE_COUNT (deadCount st.pool) ∧
    ((∀ i < PARTICLE_CAPACITY, (st.pool i).lifetime ≤ (st.pool i).age) →
      ((Finset.range PARTICLE_CAPACITY).filter
          (fun i => (burstPool R sqrtQ k st i).age
            < (burstPool R sqrtQ k st i).lifetime)).card = BURST_PARTICLE_COUNT ∧
      (∀ i < PARTICLE_CAPACITY,
        (burstPool R sqrtQ k st i).age < (burstPool R sqrtQ k st i).lifetime →
          (burstPool R sqrtQ k st i).age = 0 ∧
          |(burstPool R sqrtQ k st i).posX| ≤ 1/100 ∧
          |(burstPool R sqrtQ k st i).posY| ≤ 1/100 ∧
          (burstPool R sqrtQ k st i).posZ = 0)) := by
  constructor
  · rw [Finset.filter_congr
      (fun i hi => spawn_transition_iff R sqrtQ st k hR hk i (Finset.mem_range.mp hi)),
      spawnEligible_card]
    unfold deadCount
    omega
  · intro hAll
    have hdc : deadCountBelow st.pool PARTICLE_CAPACITY = PARTICLE_CAPACITY := by
      unfold deadCountBelow
      rw [Finset.filter_true_of_mem (fun i hi => hAll i (Finset.mem_range.mp hi)),
        Finset.card_range]
    constructor
    · have hcongr2 : ∀ i ∈ Finset.range PARTICLE_CAPACITY,
          ((burstPool R sqrtQ k st i).age < (burstPool R sqrtQ k st i).lifetime) ↔
          ((st.pool i).lifetime ≤ (st.pool i).age ∧
            (burstPool R sqrtQ k st i).age < (burstPool R sqrtQ k st i).lifetime) :=
        fun i hi =>
          ⟨fun h => ⟨hAll i (Finset.mem_range.mp hi), h⟩, fun h => h.2⟩
      rw [Finset.filter_congr hcongr2,
        Finset.filter_congr
          (fun i hi => spawn_transition_iff R sqrtQ st k hR hk i (Finset.mem_range.mp hi)),
        spawnEligible_card, hdc]
      decide
    · intro i hi haliv
      rw [burstPool_apply R sqrtQ k st hk i hi] at haliv ⊢
      have hd := hAll i hi
      by_cases hc : deadCountBelow st.pool i < BURST_PARTICLE_COUNT
      · rw [spawnSlotResult_spawned R sqrtQ st.pool i ⟨hd, hc⟩]
        have hv := hR i
        have hx : (reinitSlot (R i)).posX = ((R i).rx - 1/2) * (2/100) := rfl
        have hy : (reinitSlot (R i)).posY = ((R i).ry - 1/2) * (2/100) := rfl
        refine ⟨impulse_age sqrtQ _, ?_, ?_, impulse_posZ sqrtQ _⟩
        · rw [impulse_posX, hx, abs_le]
          constructor <;> linarith [hv.rx0, hv.rx1]
        · rw [impulse_posY, hy, abs_le]
          constructor <;> linarith [hv.ry0, hv.ry1]
      · exfalso
        rw [spawnSlotResult_skipped R sqrtQ st.pool i (fun h => hc h.2), impulse_age,
          impulse_lifetime] at haliv
        exact absurd hd (not_le.mpr haliv)

/-- C2 witness: the all-dead initial pool sprayed with key `"a"` and
in-range random draws. -/
theorem spawn_transition_count_witness :
    validR RHalf ∧ keyA ∉ modifierKeys ∧
    (((Finset.range PARTICLE_CAPACITY).filter
        (fun i => (initPool i).lifetime ≤ (initPool i).age ∧
          (burstPool RHalf sqrtZero keyA ⟨initPool, 0⟩ i).age
            < (burstPool RHalf sqrtZero keyA ⟨initPool, 0⟩ i).lifetime)).card
      = min BURST_PARTICLE_COUNT (deadCount initPool) ∧
    ((∀ i < PARTICLE_CAPACITY, (initPool i).lifetime ≤ (initPool i).age) →
      ((Finset.range PARTICLE_CAPACITY).filter
          (fun i => (burstPool RHalf sqrtZero keyA ⟨initPool, 0⟩ i).age
            < (burstPool RHalf sqrtZero keyA ⟨initPool, 0⟩ i).lifetime)).card
        = BURST_PARTICLE_COUNT ∧
      (∀ i < PARTICLE_CAPACITY,
        (burstPool RHalf sqrtZero keyA ⟨initPool, 0⟩ i).age
            < (burstPool RHalf sqrtZero keyA ⟨initPool, 0⟩ i).lifetime →
          (burstPool RHalf sqrtZero keyA ⟨initPool, 0⟩ i).age = 0 ∧
          |(burstPool RHalf sqrtZero keyA ⟨initPool, 0⟩ i).posX| ≤ 1/100 ∧
          |(burstPool RHalf sqrtZero keyA ⟨initPool, 0⟩ i).posY| ≤ 1/100 ∧
          (burstPool RHalf sqrtZero keyA ⟨initPool, 0⟩ i).posZ = 0))) :=
  ⟨validR_RHalf, by decide,
    spawn_transition_count RHalf sqrtZero ⟨initPool, 0⟩ keyA validR_RHalf (by decide)⟩

/-- C3 counterexample: an alive particle at `(1e-5, 0, 0)` — inside the
impulse radius, with true distance `d = 1e-5` below the `1e-4` clamp —
gains the velocity `(1999/4000, 0, 0)`, of magnitude `1999/4000 ≈ 0.5`,
while the claim's formula `IMPULSE_STRENGTH * (1 - d / IMPULSE_RADIUS)`
demands magnitude `19999/4000 ≈ 5`. In particular the magnitude near the
center approaches `0`, not `IMPULSE_STRENGTH`. -/
theorem impulse_near_center_counterexample :
    dist2 (poolCenter 0) < IMPULSE_RADIUS * IMPULSE_RADIUS ∧
    (1/100000 : ℚ) * (1/100000) = dist2 (poolCenter 0) ∧
    sqrtCenter (dist2 (poolCenter 0)) = 1/100000 ∧
    (burstPool RZero sqrtCenter keyA ⟨poolCenter, 0⟩ 0).velX - (poolCenter 0).velX
        = 1999/4000 ∧
    (burstPool RZero sqrtCenter keyA ⟨poolCenter, 0⟩ 0).velY - (poolCenter 0).velY = 0 ∧
    (burstPool RZero sqrtCenter keyA ⟨poolCenter, 0⟩ 0).velZ - (poolCenter 0).velZ = 0 ∧
    ¬ ((1999/4000 : ℚ) = IMPULSE_STRENGTH * (1 - (1/100000) / IMPULSE_RADIUS)) := by
  have ha : (poolCenter 0).age < (poolCenter 0).lifetime := by norm_num [poolCenter]
  have hr : dist2 (poolCenter 0) < IMPULSE_RADIUS * IMPULSE_RADIUS := by
    norm_num [dist2, poolCenter, IMPULSE_RADIUS]
  have hb : burstPool RZero sqrtCenter keyA ⟨poolCenter, 0⟩ 0
      = impulse sqrtCenter (poolCenter 0) :=
    (burstPool_apply RZero sqrtCenter keyA ⟨poolCenter, 0⟩ (by decide) 0
        (by decide)).trans
      (spawnSlotResult_skipped RZero sqrtCenter poolCenter 0
        (fun h => absurd h.1 (not_le.mpr ha)))
  refine ⟨hr, by norm_num [dist2, poolCenter],
    by norm_num [sqrtCenter, dist2, poolCenter], ?_, ?_, ?_,
    by norm_num [IMPULSE_STRENGTH, IMPULSE_RADIUS]⟩ <;>
    rw [hb, impulse_of_near sqrtCenter (poolCenter 0) ha hr] <;>
    norm_num [poolCenter, sqrtCenter, dist2, IMPULSE_STRENGTH, IMPULSE_RADIUS, max_def]

/-- C3 (amended): during a spawn pass with a non-modifier key, an alive
particle at true distance `d` from the origin with `d^2` inside
`IMPULSE_RADIUS^2` gains: for `d >= 1e-4`, the velocity
`(pos/d) * IMPULSE_STRENGTH * (1 - d/IMPULSE_RADIUS)`, of magnitude
exactly `IMPULSE_STRENGTH * (1 - d/IMPULSE_RADIUS)`; at or beyond the
radius (`d^2 >= IMPULSE_RADIUS^2`, in particular `d = IMPULSE_RADIUS`) no
velocity change at all; and below the clamp (`d < 1e-4`) the velocity
`(pos/1e-4) * IMPULSE_STRENGTH * (1 - 1e-4/IMPULSE_RADIUS)`, of magnitude
`IMPULSE_STRENGTH * (1 - 1e-4/IMPULSE_RADIUS) * (d/1e-4)` — which tends to
`0`, not `IMPULSE_STRENGTH`, as `d` tends to `0`. -/
theorem impulse_velocity_increment (R : ℕ → Sample) (sqrtQ : ℚ → ℚ)
    (st : EngineState) (k : String) (i : ℕ) (d : ℚ) (hk : k ∉ modifierKeys)
    (hi : i < PARTICLE_CAPACITY) (ha : (st.pool i).age < (st.pool i).lifetime)
    (hsq : sqrtQ (dist2 (st.pool i)) = d) (hdd : d * d = dist2 (st.pool i))
    (hd0 : 0 ≤ d) :
    (1/10000 ≤ d → dist2 (st.pool i) < IMPULSE_RADIUS * IMPULSE_RADIUS →
      (burstPool R sqrtQ k st i).velX - (st.pool i).velX
          = (st.pool i).posX / d * (IMPULSE_STRENGTH * (1 - d / IMPULSE_RADIUS)) ∧
      (burstPool R sqrtQ k st i).velY - (st.pool i).velY
          = (st.pool i).posY / d * (IMPULSE_STRENGTH * (1 - d / IMPULSE_RADIUS)) ∧
      (burstPool R sqrtQ k st i).velZ - (st.pool i).velZ
          = (st.pool i).posZ / d * (IMPULSE_STRENGTH * (1 - d / IMPULSE_RADIUS)) ∧
      ((burstPool R sqrtQ k st i).velX - (st.pool i).velX) ^ 2
        + ((burstPool R sqrtQ k st i).velY - (st.pool i).velY) ^ 2
        + ((burstPool R sqrtQ k st i).velZ - (st.pool i).velZ) ^ 2
          = (IMPULSE_STRENGTH * (1 - d / IMPULSE_RADIUS)) ^ 2) ∧
    (¬ dist2 (st.pool i) < IMPULSE_RADIUS * IMPULSE_RADIUS →
      burstPool R sqrtQ k st i = st.pool i) ∧
    (d < 1/10000 →
      (burstPool R sqrtQ k st i).velX - (st.pool i).velX
          = (st.pool i).posX / (1/10000)
            * (IMPULSE_STRENGTH * (1 - (1/10000) / IMPULSE_RADIUS)) ∧
      (burstPool R sqrtQ k st i).velY - (st.pool i).velY
          = (st.pool i).posY / (1/10000)
            * (IMPULSE_STRENGTH * (1 - (1/10000) / IMPULSE_RADIUS)) ∧
      (burstPool R sqrtQ k st i).velZ - (st.pool i).velZ
          = (st.pool i).posZ / (1/10000)
            * (IMPULSE_STRENGTH * (1 - (1/10000) / IMPULSE_RADIUS)) ∧
      ((burstPool R sqrtQ k st i).velX - (st.pool i).velX) ^ 2
        + ((burstPool R sqrtQ k st i).velY - (st.pool i).velY) ^ 2
        + ((burstPool R sqrtQ k st i).velZ - (st.pool i).velZ) ^ 2
          = (IMPULSE_STRENGTH * (1 - (1/10000) / IMPULSE_RADIUS)
              * (d / (1/10000))) ^ 2) := by
  have hb : burstPool R sqrtQ k st i = impulse sqrtQ (st.pool i) :=
    (burstPool_apply R sqrtQ k st hk i hi).trans
      (spawnSlotResult_skipped R sqrtQ st.pool i (fun h => absurd h.1 (not_le.mpr ha)))
  have hxyz : (st.pool i).posX * (st.pool i).posX
      + (st.pool i).posY * (st.pool i).posY
      + (st.pool i).posZ * (st.pool i).posZ = d * d := by
    rw [hdd]
    rfl
  have hsum : ∀ vx vy vz x y z c S : ℚ,
      (vx + x / c * S - vx) ^ 2 + (vy + y / c * S - vy) ^ 2
        + (vz + z / c * S - vz) ^ 2 = (x * x + y * y + z * z) * (S / c) ^ 2 := by
    intro vx vy vz x y z c S
    ring
  refine ⟨?_, ?_, ?_⟩
  · intro hdge hr
    have hdne : d ≠ 0 := ne_of_gt (lt_of_lt_of_le (by norm_num) hdge)
    have hmax : max (1/10000) (sqrtQ (dist2 (st.pool i))) = d := by
      rw [hsq]
      exact max_eq_right hdge
    rw [hb, impulse_of_near sqrtQ (st.pool i) ha hr, hmax]
    refine ⟨?_, ?_, ?_, ?_⟩ <;> dsimp only
    · ring
    · ring
    · ring
    · rw [hsum, hxyz]
      field_simp
      ring
  · intro hr
    rw [hb]
    exact impulse_of_far sqrtQ (st.pool i) hr
  · intro hdlt
    have hr : dist2 (st.pool i) < IMPULSE_RADIUS * IMPULSE_RADIUS := by
      rw [← hdd]
      calc d * d < 1/10000 * (1/10000) := mul_self_lt_mul_self hd0 hdlt
        _ < IMPULSE_RADIUS * IMPULSE_RADIUS := by norm_num [IMPULSE_RADIUS]
    have hmax : max (1/10000) (sqrtQ (dist2 (st.pool i))) = 1/10000 := by
      rw [hsq]
      exact max_eq_left (le_of_lt hdlt)
    rw [hb, impulse_of_near sqrtQ (st.pool i) ha hr, hmax]
    refine ⟨?_, ?_, ?_, ?_⟩ <;> dsimp only
    · ring
    · ring
    · ring
    · rw [hsum, hxyz]
      ring

/-- C3 witness: an alive particle at `(1/10, 0, 0)` with exact distance
`1/10`, which is above the `1e-4` clamp and inside the impulse radius. -/
theorem impulse_velocity_increment_witness :
    keyA ∉ modifierKeys ∧ (poolTenth 0).age < (poolTenth 0).lifetime ∧
    sqrtTenth (dist2 (poolTenth 0)) = 1/10 ∧
    (1/10 : ℚ) * (1/10) = dist2 (poolTenth 0) ∧ (0 : ℚ) ≤ 1/10 ∧
    ((1/10000 ≤ (1/10 : ℚ) →
      dist2 (poolTenth 0) < IMPULSE_RADIUS * IMPULSE_RADIUS →
      (burstPool RZero sqrtTenth keyA ⟨poolTenth, 0⟩ 0).velX - (poolTenth 0).velX
          = (poolTenth 0).posX / (1/10)
            * (IMPULSE_STRENGTH * (1 - (1/10) / IMPULSE_RADIUS)) ∧
      (burstPool RZero sqrtTenth keyA ⟨poolTenth, 0⟩ 0).velY - (poolTenth 0).velY
          = (poolTenth 0).posY / (1/10)
            * (IMPULSE_STRENGTH * (1 - (1/10) / IMPULSE_RADIUS)) ∧
      (burstPool RZero sqrtTenth keyA ⟨poolTenth, 0⟩ 0).velZ - (poolTenth 0).velZ
          = (poolTenth 0).posZ / (1/10)
            * (IMPULSE_STRENGTH * (1 - (1/10) / IMPULSE_RADIUS)) ∧
      ((burstPool RZero sqrtTenth keyA ⟨poolTenth, 0⟩ 0).velX - (poolTenth 0).velX) ^ 2
        + ((burstPool RZero sqrtTenth keyA ⟨poolTenth, 0⟩ 0).velY - (poolTenth 0).velY) ^ 2
        + ((burstPool RZero sqrtTenth keyA ⟨poolTenth, 0⟩ 0).velZ - (poolTenth 0).velZ) ^ 2
          = (IMPULSE_STRENGTH * (1 - (1/10) / IMPULSE_RADIUS)) ^ 2) ∧
    (¬ dist2 (poolTenth 0) < IMPULSE_RADIUS * IMPULSE_RADIUS →
      burstPool RZero sqrtTenth keyA ⟨poolTenth, 0⟩ 0 = poolTenth 0) ∧
    ((1/10 : ℚ) < 1/10000 →
      (burstPool RZero sqrtTenth keyA ⟨poolTenth, 0⟩ 0).velX - (poolTenth 0).velX
          = (poolTenth 0).posX / (1/10000)
            * (IMPULSE_STRENGTH * (1 - (1/10000) / IMPULSE_RADIUS)) ∧
      (burstPool RZero sqrtTenth keyA ⟨poolTenth, 0⟩ 0).velY - (poolTenth 0).velY
          = (poolTenth 0).posY / (1/10000)
            * (IMPULSE_STRENGTH * (1 - (1/10000) / IMPULSE_RADIUS)) ∧
      (burstPool RZero sqrtTenth keyA ⟨poolTenth, 0⟩ 0).velZ - (poolTenth 0).velZ
          = (poolTenth 0).posZ / (1/10000)
            * (IMPULSE_STRENGTH * (1 - (1/10000) / IMPULSE_RADIUS)) ∧
      ((burstPool RZero sqrtTenth keyA ⟨poolTenth, 0⟩ 0).velX - (poolTenth 0).velX) ^ 2
        + ((burstPool RZero sqrtTenth keyA ⟨poolTenth, 0⟩ 0).velY - (poolTenth 0).velY) ^ 2
        + ((burstPool RZero sqrtTenth keyA ⟨poolTenth, 0⟩ 0).velZ - (poolTenth 0).velZ) ^ 2
          = (IMPULSE_STRENGTH * (1 - (1/10000) / IMPULSE_RADIUS)
              * ((1/10) / (1/10000))) ^ 2)) :=
  ⟨by decide, by norm_num [poolTenth],
    by norm_num [sqrtTenth, dist2, poolTenth],
    by norm_num [dist2, poolTenth], by norm_num,
    impulse_velocity_increment RZero sqrtTenth ⟨poolTenth, 0⟩ keyA 0 (1/10)
      (by decide) (by decide) (by norm_num [poolTenth])
      (by norm_num [sqrtTenth, dist2, poolTenth])
      (by norm_num [dist2, poolTenth]) (by norm_num)⟩

end SmashParticles
